import Mathlib

/-!
Verification of the TCS schema version compatibility registry
(`src/pytcsschemahelper/versions.py`).

The module defines three string-valued enumerations of schema versions,
three default-version constants, a router URL constant, two static
compatibility matrices (Python dicts keyed by enum members) and two pure
predicate functions performing a dict lookup followed by a list-membership
test.

Modelling notes.  Each Python enum subclasses `str`, so equality and
hashing of a member coincide with those of its string value.  We embed
each enumeration as an inductive type with a `value` projection to
`String`, and model the runtime behaviour of dict lookup and list
membership by comparing string values.  The two predicate functions are
therefore embedded as functions on `String`, which is exactly the set of
inputs Python accepts at runtime.
-/

/-- Reporting Organisation schema versions, members in declaration order. -/
inductive ReportingOrgVersion
  | V0_0_1
  | V0_1_0
  | V0_1_1
  | V0_1_2
deriving DecidableEq

/-- Emissions Report schema versions, members in declaration order. -/
inductive EmissionsReportVersion
  | V0_0_1
  | V0_0_2
  | V0_0_3
deriving DecidableEq

/-- Tech Carbon Standard schema versions, members in declaration order. -/
inductive TCSVersion
  | V0_0_1
  | V0_0_2
  | V0_1_0
deriving DecidableEq

/-- String value of each `ReportingOrgVersion` member. -/
def ReportingOrgVersion.value : ReportingOrgVersion → String
  | .V0_0_1 => "0.0.1"
  | .V0_1_0 => "0.1.0"
  | .V0_1_1 => "0.1.1"
  | .V0_1_2 => "0.1.2"

/-- String value of each `EmissionsReportVersion` member. -/
def EmissionsReportVersion.value : EmissionsReportVersion → String
  | .V0_0_1 => "0.0.1"
  | .V0_0_2 => "0.0.2"
  | .V0_0_3 => "0.0.3"

/-- String value of each `TCSVersion` member. -/
def TCSVersion.value : TCSVersion → String
  | .V0_0_1 => "0.0.1"
  | .V0_0_2 => "0.0.2"
  | .V0_1_0 => "0.1.0"

/-- All members of `ReportingOrgVersion`, in declaration order. -/
def ReportingOrgVersion.members : List ReportingOrgVersion :=
  [.V0_0_1, .V0_1_0, .V0_1_1, .V0_1_2]

/-- All members of `EmissionsReportVersion`, in declaration order. -/
def EmissionsReportVersion.members : List EmissionsReportVersion :=
  [.V0_0_1, .V0_0_2, .V0_0_3]

/-- All members of `TCSVersion`, in declaration order. -/
def TCSVersion.members : List TCSVersion :=
  [.V0_0_1, .V0_0_2, .V0_1_0]

/-- Position of a `ReportingOrgVersion` member in declaration (oldest to
newest) order. -/
def ReportingOrgVersion.ord : ReportingOrgVersion → Nat
  | .V0_0_1 => 0
  | .V0_1_0 => 1
  | .V0_1_1 => 2
  | .V0_1_2 => 3

/-- Position of an `EmissionsReportVersion` member in declaration (oldest
to newest) order. -/
def EmissionsReportVersion.ord : EmissionsReportVersion → Nat
  | .V0_0_1 => 0
  | .V0_0_2 => 1
  | .V0_0_3 => 2

/-- Position of a `TCSVersion` member in declaration (oldest to newest)
order. -/
def TCSVersion.ord : TCSVersion → Nat
  | .V0_0_1 => 0
  | .V0_0_2 => 1
  | .V0_1_0 => 2

/-- Default Reporting Organisation version
(`DEFAULT_REPORTING_ORG_VERSION = ReportingOrgVersion.V0_1_2`). -/
def DEFAULT_REPORTING_ORG_VERSION : ReportingOrgVersion := .V0_1_2

/-- Default Emissions Report version
(`DEFAULT_EMISSIONS_REPORT_VERSION = EmissionsReportVersion.V0_0_3`). -/
def DEFAULT_EMISSIONS_REPORT_VERSION : EmissionsReportVersion := .V0_0_3

/-- Default TCS version (`DEFAULT_TCS_VERSION = TCSVersion.V0_1_0`). -/
def DEFAULT_TCS_VERSION : TCSVersion := .V0_1_0

/-- Router schema URL constant from the source. -/
def ROUTER_SCHEMA_URL : String :=
  "https://techcarbonstandard.org/schemas/index.json"

/-- The dict `REPORTING_ORG_COMPATIBILITY`, entries in the source's
insertion order. -/
def REPORTING_ORG_COMPATIBILITY :
    List (ReportingOrgVersion × List EmissionsReportVersion) :=
  [(.V0_1_2, [.V0_0_1, .V0_0_2, .V0_0_3]),
   (.V0_1_1, [.V0_0_1, .V0_0_2, .V0_0_3]),
   (.V0_1_0, [.V0_0_1, .V0_0_2]),
   (.V0_0_1, [.V0_0_1])]

/-- The dict `EMISSIONS_REPORT_COMPATIBILITY`, entries in the source's
insertion order. -/
def EMISSIONS_REPORT_COMPATIBILITY :
    List (EmissionsReportVersion × List TCSVersion) :=
  [(.V0_0_3, [.V0_0_1, .V0_0_2, .V0_1_0]),
   (.V0_0_2, [.V0_0_1, .V0_0_2]),
   (.V0_0_1, [.V0_0_1])]

/-- Python `dict.get(k, dflt)` on a dict whose keys are str-enum members:
a key matches when its string value equals the looked-up string, and a
missing key yields the default. -/
def dictGet {α β : Type} (value : α → String) (d : List (α × β))
    (k : String) (dflt : β) : β :=
  match d.find? (fun p => value p.1 == k) with
  | some p => p.2
  | none => dflt

/-- The function `is_emissions_report_compatible`: looks up the parent in
`REPORTING_ORG_COMPATIBILITY` (absent keys give the empty list) and tests
membership of the child by string value. -/
def is_emissions_report_compatible (reporting_org_version : String)
    (emissions_report_version : String) : Bool :=
  let compatible_versions :=
    dictGet ReportingOrgVersion.value REPORTING_ORG_COMPATIBILITY
      reporting_org_version []
  compatible_versions.any
    (fun v => v.value == emissions_report_version)

/-- The function `is_tcs_compatible`: looks up the parent in
`EMISSIONS_REPORT_COMPATIBILITY` (absent keys give the empty list) and
tests membership of the child by string value. -/
def is_tcs_compatible (emissions_report_version : String)
    (tcs_version : String) : Bool :=
  let compatible_versions :=
    dictGet EmissionsReportVersion.value EMISSIONS_REPORT_COMPATIBILITY
      emissions_report_version []
  compatible_versions.any (fun v => v.value == tcs_version)

/-- Variant of `is_emissions_report_compatible` taking enum members and
comparing them structurally, as the function's type annotations suggest. -/
def is_emissions_report_compatible_mem (ro : ReportingOrgVersion)
    (er : EmissionsReportVersion) : Bool :=
  match REPORTING_ORG_COMPATIBILITY.find? (fun p => p.1 == ro) with
  | some p => p.2.contains er
  | none => false

/-- Variant of `is_tcs_compatible` taking enum members and comparing them
structurally, as the function's type annotations suggest. -/
def is_tcs_compatible_mem (er : EmissionsReportVersion)
    (t : TCSVersion) : Bool :=
  match EMISSIONS_REPORT_COMPATIBILITY.find? (fun p => p.1 == er) with
  | some p => p.2.contains t
  | none => false

/-- The accepted Emissions-Report set of a Reporting-Org version, as read
from `REPORTING_ORG_COMPATIBILITY`. -/
def acceptedEmissionsReports (p : ReportingOrgVersion) :
    List EmissionsReportVersion :=
  dictGet ReportingOrgVersion.value REPORTING_ORG_COMPATIBILITY p.value []

/-- The accepted TCS-data set of an Emissions-Report version, as read from
`EMISSIONS_REPORT_COMPATIBILITY`. -/
def acceptedTCSVersions (p : EmissionsReportVersion) : List TCSVersion :=
  dictGet EmissionsReportVersion.value EMISSIONS_REPORT_COMPATIBILITY
    p.value []

/-- The Reporting-Org to Emissions-Report matrix exactly as the spec lists
it, over plain version strings. -/
def specReportingOrgMatrix : List (String × List String) :=
  [("0.1.2", ["0.0.1", "0.0.2", "0.0.3"]),
   ("0.1.1", ["0.0.1", "0.0.2", "0.0.3"]),
   ("0.1.0", ["0.0.1", "0.0.2"]),
   ("0.0.1", ["0.0.1"])]

/-- The Emissions-Report to TCS-data matrix exactly as the spec lists it,
over plain version strings. -/
def specEmissionsReportMatrix : List (String × List String) :=
  [("0.0.3", ["0.0.1", "0.0.2", "0.1.0"]),
   ("0.0.2", ["0.0.1", "0.0.2"]),
   ("0.0.1", ["0.0.1"])]

/-- Whether a parent/child string pair is explicitly listed in the spec's
Reporting-Org to Emissions-Report matrix. -/
def specListedRO (p c : String) : Bool :=
  specReportingOrgMatrix.any (fun row => row.1 == p && row.2.contains c)

/-- Whether a parent/child string pair is explicitly listed in the spec's
Emissions-Report to TCS-data matrix. -/
def specListedER (p c : String) : Bool :=
  specEmissionsReportMatrix.any (fun row => row.1 == p && row.2.contains c)

theorem dictGet_of_not_key {α β : Type} (value : α → String)
    (d : List (α × β)) (k : String) (dflt : β)
    (h : ∀ p ∈ d, value p.1 ≠ k) : dictGet value d k dflt = dflt := by
  have hnone : d.find? (fun p => value p.1 == k) = none := by
    rw [List.find?_eq_none]
    intro p hp
    simpa using h p hp
  simp [dictGet, hnone]

/-- C1: a predicate returns true on exactly the parent/child pairs listed
in the spec's matrices, and false on every other pair of the cross-product
of the two layers' enumerations. -/
theorem C1_matrix_agreement :
    (∀ p ∈ ReportingOrgVersion.members,
      ∀ c ∈ EmissionsReportVersion.members,
        is_emissions_report_compatible p.value c.value =
          specListedRO p.value c.value) ∧
    (∀ p ∈ EmissionsReportVersion.members,
      ∀ c ∈ TCSVersion.members,
        is_tcs_compatible p.value c.value =
          specListedER p.value c.value) := by
  decide

theorem C1_matrix_agreement_witness :
    is_emissions_report_compatible "0.1.2" "0.0.3" =
      specListedRO "0.1.2" "0.0.3" :=
  C1_matrix_agreement.1 ReportingOrgVersion.V0_1_2 (by decide)
    EmissionsReportVersion.V0_0_3 (by decide)

/-- C2: both predicates are total Lean functions, and a parent string that
is not a key of the relevant matrix yields false for every child string;
no failure path exists. -/
theorem C2_total_unknown_parent_false :
    (∀ p : String,
      p ∉ REPORTING_ORG_COMPATIBILITY.map (fun row => row.1.value) →
      ∀ c : String, is_emissions_report_compatible p c = false) ∧
    (∀ p : String,
      p ∉ EMISSIONS_REPORT_COMPATIBILITY.map (fun row => row.1.value) →
      ∀ c : String, is_tcs_compatible p c = false) := by
  constructor
  · intro p hp c
    have h : ∀ row ∈ REPORTING_ORG_COMPATIBILITY,
        ReportingOrgVersion.value row.1 ≠ p := by
      intro row hrow heq
      exact hp (List.mem_map.mpr ⟨row, hrow, heq⟩)
    simp [is_emissions_report_compatible,
      dictGet_of_not_key ReportingOrgVersion.value
        REPORTING_ORG_COMPATIBILITY p [] h]
  · intro p hp c
    have h : ∀ row ∈ EMISSIONS_REPORT_COMPATIBILITY,
        EmissionsReportVersion.value row.1 ≠ p := by
      intro row hrow heq
      exact hp (List.mem_map.mpr ⟨row, hrow, heq⟩)
    simp [is_tcs_compatible,
      dictGet_of_not_key EmissionsReportVersion.value
        EMISSIONS_REPORT_COMPATIBILITY p [] h]

theorem C2_total_unknown_parent_false_witness :
    is_emissions_report_compatible "9.9.9" "0.0.1" = false ∧
    is_tcs_compatible "9.9.9" "0.0.1" = false :=
  ⟨C2_total_unknown_parent_false.1 "9.9.9" (by decide) "0.0.1",
   C2_total_unknown_parent_false.2 "9.9.9" (by decide) "0.0.1"⟩

/-- C3: accepted-child sets are monotonically non-shrinking as the parent
version increases in the enumeration order, for both matrices. -/
theorem C3_monotone_accepted_sets :
    (∀ p ∈ ReportingOrgVersion.members,
      ∀ q ∈ ReportingOrgVersion.members, p.ord ≤ q.ord →
        (acceptedEmissionsReports p).all
          (fun c => (acceptedEmissionsReports q).contains c) = true) ∧
    (∀ p ∈ EmissionsReportVersion.members,
      ∀ q ∈ EmissionsReportVersion.members, p.ord ≤ q.ord →
        (acceptedTCSVersions p).all
          (fun c => (acceptedTCSVersions q).contains c) = true) := by
  decide

theorem C3_monotone_accepted_sets_witness :
    (acceptedEmissionsReports ReportingOrgVersion.V0_0_1).all
      (fun c =>
        (acceptedEmissionsReports ReportingOrgVersion.V0_1_2).contains c)
      = true :=
  C3_monotone_accepted_sets.1 ReportingOrgVersion.V0_0_1 (by decide)
    ReportingOrgVersion.V0_1_2 (by decide) (by decide)

/-- C4: every member of each layer's enumeration appears as a key of the
matrix whose domain is that layer, mapped to a non-empty accepted set. -/
theorem C4_every_member_keyed_nonempty :
    (∀ v ∈ ReportingOrgVersion.members,
      v ∈ REPORTING_ORG_COMPATIBILITY.map (fun row => row.1) ∧
      acceptedEmissionsReports v ≠ []) ∧
    (∀ v ∈ EmissionsReportVersion.members,
      v ∈ EMISSIONS_REPORT_COMPATIBILITY.map (fun row => row.1) ∧
      acceptedTCSVersions v ≠ []) := by
  decide

theorem C4_every_member_keyed_nonempty_witness :
    ReportingOrgVersion.V0_0_1 ∈
      REPORTING_ORG_COMPATIBILITY.map (fun row => row.1) ∧
    acceptedEmissionsReports ReportingOrgVersion.V0_0_1 ≠ [] :=
  C4_every_member_keyed_nonempty.1 ReportingOrgVersion.V0_0_1 (by decide)

/-- C5: each enumeration contains exactly the spec-listed string values in
order, with no duplicates and with the stated cardinality, and every value
of the inductive type is one of the listed members. -/
theorem C5_enumerations_exact :
    (∀ v : ReportingOrgVersion, v ∈ ReportingOrgVersion.members) ∧
    (∀ v : EmissionsReportVersion, v ∈ EmissionsReportVersion.members) ∧
    (∀ v : TCSVersion, v ∈ TCSVersion.members) ∧
    ReportingOrgVersion.members.map ReportingOrgVersion.value =
      ["0.0.1", "0.1.0", "0.1.1", "0.1.2"] ∧
    EmissionsReportVersion.members.map EmissionsReportVersion.value =
      ["0.0.1", "0.0.2", "0.0.3"] ∧
    TCSVersion.members.map TCSVersion.value = ["0.0.1", "0.0.2", "0.1.0"] ∧
    ReportingOrgVersion.members.length = 4 ∧
    EmissionsReportVersion.members.length = 3 ∧
    TCSVersion.members.length = 3 ∧
    ReportingOrgVersion.members.Nodup ∧
    EmissionsReportVersion.members.Nodup ∧
    TCSVersion.members.Nodup :=
  ⟨fun v => by cases v <;> decide, fun v => by cases v <;> decide,
   fun v => by cases v <;> decide, by decide, by decide, by decide,
   by decide, by decide, by decide, by decide, by decide, by decide⟩

/-- C6: each default-version constant is the newest (last-declared) member
of its enumeration and its string value equals the spec's literal. -/
theorem C6_defaults_newest :
    DEFAULT_REPORTING_ORG_VERSION = ReportingOrgVersion.V0_1_2 ∧
    DEFAULT_REPORTING_ORG_VERSION.value = "0.1.2" ∧
    ReportingOrgVersion.members.getLast? =
      some DEFAULT_REPORTING_ORG_VERSION ∧
    DEFAULT_EMISSIONS_REPORT_VERSION = EmissionsReportVersion.V0_0_3 ∧
    DEFAULT_EMISSIONS_REPORT_VERSION.value = "0.0.3" ∧
    EmissionsReportVersion.members.getLast? =
      some DEFAULT_EMISSIONS_REPORT_VERSION ∧
    DEFAULT_TCS_VERSION = TCSVersion.V0_1_0 ∧
    DEFAULT_TCS_VERSION.value = "0.1.0" ∧
    TCSVersion.members.getLast? = some DEFAULT_TCS_VERSION := by
  decide

/-- C7: the router URL constant equals the spec's string character for
character. -/
theorem C7_router_url :
    ROUTER_SCHEMA_URL = "https://techcarbonstandard.org/schemas/index.json" :=
  rfl

/-- C8: accepted-child sets are downward-closed in the child enumeration
order: a parent accepting a newer child also accepts every older child. -/
theorem C8_downward_closed :
    (∀ p ∈ ReportingOrgVersion.members,
      ∀ cOld ∈ EmissionsReportVersion.members,
        ∀ cNew ∈ EmissionsReportVersion.members,
          cOld.ord < cNew.ord →
          is_emissions_report_compatible p.value cNew.value = true →
          is_emissions_report_compatible p.value cOld.value = true) ∧
    (∀ p ∈ EmissionsReportVersion.members,
      ∀ cOld ∈ TCSVersion.members,
        ∀ cNew ∈ TCSVersion.members,
          cOld.ord < cNew.ord →
          is_tcs_compatible p.value cNew.value = true →
          is_tcs_compatible p.value cOld.value = true) := by
  decide

theorem C8_downward_closed_witness :
    is_emissions_report_compatible
      ReportingOrgVersion.V0_1_0.value
      EmissionsReportVersion.V0_0_1.value = true :=
  C8_downward_closed.1 ReportingOrgVersion.V0_1_0 (by decide)
    EmissionsReportVersion.V0_0_1 (by decide)
    EmissionsReportVersion.V0_0_2 (by decide) (by decide) (by decide)

/-- C9: the three default versions are mutually compatible: the default
Reporting-Org version accepts the default Emissions-Report version, which
in turn accepts the default TCS version. -/
theorem C9_defaults_compatible :
    is_emissions_report_compatible DEFAULT_REPORTING_ORG_VERSION.value
      DEFAULT_EMISSIONS_REPORT_VERSION.value = true ∧
    is_tcs_compatible DEFAULT_EMISSIONS_REPORT_VERSION.value
      DEFAULT_TCS_VERSION.value = true := by
  decide

/-- C10: the predicates depend only on the string values of their
arguments: calling with a plain string equal to a member's value agrees
with the structural enum-membership reading of the same lookup. -/
theorem C10_string_value_semantics :
    (∀ m ∈ ReportingOrgVersion.members, ∀ s : String, s = m.value →
      ∀ c ∈ EmissionsReportVersion.members,
        is_emissions_report_compatible s c.value =
          is_emissions_report_compatible_mem m c) ∧
    (∀ m ∈ EmissionsReportVersion.members, ∀ s : String, s = m.value →
      ∀ c ∈ TCSVersion.members,
        is_tcs_compatible s c.value = is_tcs_compatible_mem m c) := by
  constructor
  · intro m hm s hs c hc
    subst hs
    cases m <;> cases c <;> decide
  · intro m hm s hs c hc
    subst hs
    cases m <;> cases c <;> decide

theorem C10_string_value_semantics_witness :
    is_emissions_report_compatible "0.1.2"
      EmissionsReportVersion.V0_0_3.value =
      is_emissions_report_compatible_mem ReportingOrgVersion.V0_1_2
        EmissionsReportVersion.V0_0_3 :=
  C10_string_value_semantics.1 ReportingOrgVersion.V0_1_2 (by decide)
    "0.1.2" (by decide) EmissionsReportVersion.V0_0_3 (by decide)
